import Mathlib

/-!
Verification development for the `wap` repository's geospatial core
(`python_backend/main_function.py`): the boundary-revision comparator
`find_overlapping_polygons`, the off-point check `search_off_point`, and the
world-file generator `create_world_files_from_geojson`.

Areas and coordinates are modelled as exact rationals.  Division results that
feed pandas boolean masks are modelled by `PVal`, which mirrors IEEE-754
special values produced by pandas float division (`x/0 = inf`, `0/0 = NaN`)
and the fact that every comparison against `NaN` is false.
-/

/-- Result of a pandas float division: a finite value, `inf`, `-inf` or `NaN`. -/
inductive PVal where
  | val : ℚ → PVal
  | inf : PVal
  | ninf : PVal
  | nan : PVal
deriving DecidableEq, Repr

/-- Pandas float division `x / y` on exact operands: division by zero yields
`inf` / `-inf` / `NaN` according to the sign of the numerator. -/
def pdiv (x y : ℚ) : PVal :=
  if y = 0 then
    if x = 0 then PVal.nan else if 0 < x then PVal.inf else PVal.ninf
  else PVal.val (x / y)

/-- The pandas comparison `v >= t` for a float column value `v` against a
finite threshold `t`; any comparison involving `NaN` is false. -/
def pvalGe : PVal → ℚ → Bool
  | PVal.val q, t => decide (t ≤ q)
  | PVal.inf, _ => true
  | PVal.ninf, _ => false
  | PVal.nan, _ => false

/-- `1 - v` on pandas float values. -/
def pvalOneSub : PVal → PVal
  | PVal.val q => PVal.val (1 - q)
  | PVal.inf => PVal.ninf
  | PVal.ninf => PVal.inf
  | PVal.nan => PVal.nan

/-- Geometry type of an overlay intersection result, as reported by
`geometry.geom_type`. -/
inductive GeomType where
  | polygon
  | multiPolygon
  | point
  | lineString
  | geometryCollection
deriving DecidableEq, Repr

/-- `geom_type.isin(['Polygon', 'MultiPolygon'])`. -/
def isPolygonal : GeomType → Bool
  | GeomType.polygon => true
  | GeomType.multiPolygon => true
  | _ => false

/-- One row of `gpd.overlay(gdf_a, gdf_b, how='intersection',
keep_geom_type=False)` after the id columns have been renamed to
`idsls_baru` / `idsls_lama` and the per-polygon areas `area_baru` /
`area_lama` have been attached.  The intersection geometry is modelled by its
type together with the list of areas of its polygonal parts (one element for
a plain `Polygon`, several for a `MultiPolygon`). -/
structure IRow where
  idsls_baru : String
  idsls_lama : String
  area_baru : ℚ
  area_lama : ℚ
  geomType : GeomType
  fragments : List ℚ
deriving DecidableEq, Repr

/-- `intersections.geometry.area`: the area of a (multi)polygon is the sum of
the areas of its parts. -/
def area_intersection (r : IRow) : ℚ := r.fragments.sum

/-- Column `ratio_baru = area_intersection / area_baru`. -/
def ratio_baru (r : IRow) : PVal := pdiv (area_intersection r) r.area_baru

/-- Column `ratio_lama = area_intersection / area_lama`. -/
def ratio_lama (r : IRow) : PVal := pdiv (area_intersection r) r.area_lama

/-- Column `area_change_ratio = 1 - area_intersection /
((area_baru + area_lama) / 2)`. -/
def area_change_ratio (r : IRow) : PVal :=
  pvalOneSub (pdiv (area_intersection r) ((r.area_baru + r.area_lama) / 2))

/-- The boolean mask for the different-id branch:
`((ratio_baru >= thr) | (ratio_lama >= thr)) & (idsls_baru != idsls_lama)`. -/
def mask_different (thr : ℚ) (r : IRow) : Bool :=
  (pvalGe (ratio_baru r) thr || pvalGe (ratio_lama r) thr)
    && (r.idsls_baru != r.idsls_lama)

/-- The boolean mask for the same-id branch: `idsls_baru == idsls_lama`. -/
def mask_same (r : IRow) : Bool := r.idsls_baru == r.idsls_lama

/-- Output row of the different-id table (columns `diff_cols`). -/
structure OverlapRecord where
  idsls_baru : String
  idsls_lama : String
  area_baru : ℚ
  area_lama : ℚ
  area_intersection : ℚ
  ratio_baru : PVal
  ratio_lama : PVal
deriving DecidableEq, Repr

/-- Output row of the same-id table (columns `same_cols`, with `idsls_baru`
renamed to `idsls`). -/
structure ShapeDriftRecord where
  idsls : String
  area_baru : ℚ
  area_lama : ℚ
  area_intersection : ℚ
  area_change_ratio : PVal
deriving DecidableEq, Repr

/-- Column selection `diff_cols` applied to an intersection row. -/
def diffRec (r : IRow) : OverlapRecord :=
  ⟨r.idsls_baru, r.idsls_lama, r.area_baru, r.area_lama,
    area_intersection r, ratio_baru r, ratio_lama r⟩

/-- Column selection `same_cols` applied to an intersection row. -/
def sameRec (r : IRow) : ShapeDriftRecord :=
  ⟨r.idsls_baru, r.area_baru, r.area_lama, area_intersection r,
    area_change_ratio r⟩

/-- `DataFrame.drop_duplicates()`: keep the first occurrence of every value
(later occurrences of the head are filtered out of the de-duplicated tail). -/
def dropDups {α : Type} [DecidableEq α] : List α → List α
  | [] => []
  | x :: xs => x :: (dropDups xs).filter (fun y => y ≠ x)

/-- The filter `intersections.geometry.geom_type.isin(['Polygon',
'MultiPolygon'])`. -/
def intersections_polygonal (rows : List IRow) : List IRow :=
  rows.filter (fun r => isPolygonal r.geomType)

/-- The different-id table: polygonal rows passing `mask_different`,
projected to `diff_cols` and de-duplicated. -/
def different_ids_df (rows : List IRow) (overlap_threshold : ℚ) :
    List OverlapRecord :=
  dropDups (((intersections_polygonal rows).filter
    (fun r => mask_different overlap_threshold r)).map diffRec)

/-- The same-id table: polygonal rows with equal ids whose
`area_change_ratio` meets `same_id_threshold`, projected to `same_cols` and
de-duplicated. -/
def same_ids_df (rows : List IRow) (same_id_threshold : ℚ) :
    List ShapeDriftRecord :=
  dropDups ((((intersections_polygonal rows).filter
      (fun r => mask_same r)).filter
      (fun r => pvalGe (area_change_ratio r) same_id_threshold)).map sameRec)

/-- `find_overlapping_polygons`.  The reprojection, area computation and
overlay prelude is external library work that can raise; it is modelled as an
`Except` input.  The whole body is wrapped in `try/except`, returning two
empty tables on any internal failure. -/
def find_overlapping_polygons (overlay_result : Except String (List IRow))
    (overlap_threshold same_id_threshold : ℚ) :
    List OverlapRecord × List ShapeDriftRecord :=
  match overlay_result with
  | Except.ok rows =>
      (different_ids_df rows overlap_threshold,
       same_ids_df rows same_id_threshold)
  | Except.error _ => ([], [])

/-!
### The off-point check `search_off_point`

Point and polygon layers are modelled as a schema (the list of column names)
plus rows.  Geometry is kept abstract: every point row carries a token `pid`
and every polygon row carries its `intersects` test on tokens, exactly the
capability `gpd.sjoin(..., predicate defaults to 'intersects')` consumes.
The id-column value of a row (`iddesa` / `idsls`) is `idval`, meaningful when
the schema contains the column.
-/

/-- A row of the point layer (`nama` and `wid` are the auxiliary columns the
aggregation reads; both are non-null strings). -/
structure PointRow where
  idval : String
  nama : String
  wid : String
  pid : ℕ

/-- A row of the polygon layer. -/
structure PolyRow where
  idval : String
  intersects : ℕ → Bool

/-- The point layer: schema and rows. -/
structure PointDF where
  columns : List String
  rows : List PointRow

/-- The polygon layer: schema and rows. -/
structure PolyDF where
  columns : List String
  rows : List PolyRow

/-- `colname = 'iddesa' if level=='Desa' else 'idsls'`. -/
def colname (level : String) : String :=
  if level = "Desa" then "iddesa" else "idsls"

/-- One row of the off-point summary: id value, mismatch count and the
comma-joined point identifiers. -/
structure OffRow where
  idcol : String
  count : ℕ
  list_id : String
deriving DecidableEq, Repr

/-- The inner spatial join `gpd.sjoin(point, polygon[[colname, 'geometry']])`
followed by the filter `colname_pt != colname_ea`: one mismatch entry per
(point, polygon) pair whose geometries intersect and whose id values differ.
Pairs of points with no intersecting polygon do not appear (inner join). -/
def off_point_mismatches (point : PointDF) (polygon : PolyDF) :
    List (PointRow × PolyRow) :=
  (point.rows.flatMap (fun p =>
    (polygon.rows.filter (fun q => q.intersects p.pid)).map
      (fun q => (p, q)))).filter (fun pq => pq.1.idval ≠ pq.2.idval)

/-- The `groupby(colname_pt).agg(count=('nama','count'),
list_id=('wid', ', '.join))` step: one row per distinct point-side id value,
sorted ascending (`groupby` sorts its keys), with the group size and the
comma-joined `wid` values in order of appearance. -/
def off_point_groupby (l : List (PointRow × PolyRow)) : List OffRow :=
  (List.insertionSort (fun a b : String => a ≤ b)
      (dropDups (l.map (fun pq => pq.1.idval)))).map (fun k =>
    ⟨k, (l.filter (fun pq => pq.1.idval = k)).length,
      String.intercalate ", "
        ((l.filter (fun pq => pq.1.idval = k)).map (fun pq => pq.1.wid))⟩)

/-- `search_off_point` (file I/O stripped): returns the printed messages and
either the summary table or the exception escaping the function.  A missing
id column is only printed; the code then proceeds: selecting
`polygon[[colname, 'geometry']]` raises `KeyError` when the polygon layer
lacks the column, and looking up `gdf[colname + '_pt']` raises when the point
layer lacks it (the join then left the polygon id column unsuffixed). -/
def search_off_point (point : PointDF) (polygon : PolyDF) (level : String) :
    List String × Except String (List OffRow) :=
  let c := colname level
  let msgs :=
    (if c ∈ point.columns then []
      else ["Column " ++ c ++ " was not found in point file"])
    ++ (if c ∈ polygon.columns then []
      else ["Column " ++ c ++ " was not found in polygon file"])
  if c ∈ polygon.columns then
    if c ∈ point.columns then
      (msgs, Except.ok (off_point_groupby (off_point_mismatches point polygon)))
    else (msgs, Except.error ("KeyError: " ++ c ++ "_pt"))
  else (msgs, Except.error ("KeyError: " ++ c))

/-!
### The world-file generator `create_world_files_from_geojson`
-/

/-- An axis-aligned bounding box. -/
structure Bounds where
  xmin : ℚ
  ymin : ℚ
  xmax : ℚ
  ymax : ℚ
deriving DecidableEq, Repr

/-- `target_ratio_landscape = (324, 272)` as a ratio. -/
def landscape_ratio : ℚ := 324 / 272

/-- `target_ratio_portrait = (278, 315)` as a ratio. -/
def portrait_ratio : ℚ := 278 / 315

/-- Margin fractions applied to the four edges of a ratio-corrected box. -/
structure Margins where
  upper : ℚ
  lower : ℚ
  left : ℚ
  right : ℚ
deriving DecidableEq, Repr

/-- `landscape_margins`. -/
def landscape_margins : Margins := ⟨14 / 272, 11 / 272, 9.839 / 324, 86.161 / 324⟩

/-- `portrait_margins`. -/
def portrait_margins : Margins := ⟨15 / 315, 90 / 315, 9.839 / 278, 9.161 / 278⟩

/-- The landscape branch up to (and excluding) the margin step: expand
`xmin`/`xmax` by `expand_amount`, then grow height or width symmetrically to
the 324:272 target ratio. -/
def ratio_corrected_landscape (b : Bounds) (expand_amount : ℚ) : Bounds :=
  let xmin := b.xmin - expand_amount
  let xmax := b.xmax + expand_amount
  let width := xmax - xmin
  let height := b.ymax - b.ymin
  let poly_ratio := width / height
  if poly_ratio > landscape_ratio then
    let new_height := width * (272 / 324)
    let delta := (new_height - height) / 2
    ⟨xmin, b.ymin - delta, xmax, b.ymax + delta⟩
  else
    let new_width := height * (324 / 272)
    let delta := (new_width - width) / 2
    ⟨xmin - delta, b.ymin, xmax + delta, b.ymax⟩

/-- The portrait branch up to (and excluding) the margin step: expand
`ymin`/`ymax` by `expand_amount`, then grow height or width symmetrically to
the 278:315 target ratio. -/
def ratio_corrected_portrait (b : Bounds) (expand_amount : ℚ) : Bounds :=
  let ymin := b.ymin - expand_amount
  let ymax := b.ymax + expand_amount
  let width := b.xmax - b.xmin
  let height := ymax - ymin
  let poly_ratio := width / height
  if poly_ratio > portrait_ratio then
    let new_height := width * (315 / 278)
    let delta := (new_height - height) / 2
    ⟨b.xmin, ymin - delta, b.xmax, ymax + delta⟩
  else
    let new_width := height * (278 / 315)
    let delta := (new_width - width) / 2
    ⟨b.xmin - delta, ymin, b.xmax + delta, ymax⟩

/-- The per-polygon box just before the margin step: orientation is chosen by
`width > height` (landscape) else portrait, `expand_amount =
max(width, height) * expand_percentage`. -/
def pre_margin_box (b : Bounds) (expand_percentage : ℚ) : Bounds :=
  let width := b.xmax - b.xmin
  let height := b.ymax - b.ymin
  let expand_amount := max width height * expand_percentage
  if width > height then ratio_corrected_landscape b expand_amount
  else ratio_corrected_portrait b expand_amount

/-- The margin step: `xmin -= width*left; xmax += width*right;
ymin -= height*lower; ymax += height*upper` on the ratio-corrected box. -/
def apply_margins (m : Margins) (b : Bounds) : Bounds :=
  let width := b.xmax - b.xmin
  let height := b.ymax - b.ymin
  ⟨b.xmin - width * m.left, b.ymin - height * m.lower,
    b.xmax + width * m.right, b.ymax + height * m.upper⟩

/-- The full per-polygon bound adjustment (expand, ratio-correct, margins),
with the margin set chosen by the same `width > height` test. -/
def adjust_bounds (b : Bounds) (expand_percentage : ℚ) : Bounds :=
  let width := b.xmax - b.xmin
  let height := b.ymax - b.ymin
  if width > height then
    apply_margins landscape_margins
      (ratio_corrected_landscape b (max width height * expand_percentage))
  else
    apply_margins portrait_margins
      (ratio_corrected_portrait b (max width height * expand_percentage))

/-- The six world-file coefficients (the two rotation terms are the constant
zero lines of the output file). -/
structure WorldFileParams where
  x_scale : ℚ
  y_scale : ℚ
  upper_left_x : ℚ
  upper_left_y : ℚ
deriving DecidableEq, Repr

/-- `create_world_file_from_bounds` (file writing stripped): pixel sizes and
the pixel-center upper-left corner, with the image dimensions chosen by the
orientation flag. -/
def create_world_file_from_bounds (landscape_width landscape_height
    portrait_width portrait_height : ℕ) (xmin ymin xmax ymax : ℚ)
    (landscapeFlag : Bool) : WorldFileParams :=
  let img_width : ℚ := if landscapeFlag then landscape_width else portrait_width
  let img_height : ℚ := if landscapeFlag then landscape_height else portrait_height
  let x_scale := (xmax - xmin) / img_width
  let y_scale := (ymin - ymax) / img_height
  { x_scale := x_scale
    y_scale := y_scale
    upper_left_x := xmin + x_scale / 2
    upper_left_y := ymax + y_scale / 2 }

/-- A feature row of the input layer: its `idsls` value and its geometry's
bounds when it has a geometry with bounds. -/
structure GRow where
  idsls : String
  geom : Option Bounds

/-- Side effects of `create_world_files_from_geojson` in order of
occurrence. -/
inductive WfEffect where
  | readFile
  | makeDir
  | writeFile (name : String)
deriving DecidableEq, Repr

/-- The result dictionary of `create_world_files_from_geojson`. -/
structure WorldFilesResult where
  success : Bool
  error : Option String
  created_files : List String
  total_files : ℕ
deriving DecidableEq, Repr

/-- The failure dictionary `{'success': False, 'error': msg,
'created_files': [], 'total_files': 0}`. -/
def mkWfFailure (msg : String) : WorldFilesResult :=
  ⟨false, some msg, [], 0⟩

/-- The parameter validation block at the top of
`create_world_files_from_geojson`, in source order; returns the first error
message, if any. -/
def validate_world_file_params (expand_percentage : ℚ)
    (target_dpi landscape_width landscape_height portrait_width
      portrait_height : ℤ) : Option String :=
  if expand_percentage < 0 then
    some "Invalid expand percentage. Must be non-negative."
  else if target_dpi ≤ 0 then some "Invalid DPI. Must be positive."
  else if landscape_width ≤ 0 then
    some "Invalid landscape_width. Must be positive integer."
  else if landscape_height ≤ 0 then
    some "Invalid landscape_height. Must be positive integer."
  else if portrait_width ≤ 0 then
    some "Invalid portrait_width. Must be positive integer."
  else if portrait_height ≤ 0 then
    some "Invalid portrait_height. Must be positive integer."
  else none

/-- `create_world_files_from_geojson` (I/O abstracted): `ext` is the input
path extension, `readResult` the outcome of reading the layer (whether the
`idsls` column exists, plus the rows), `reproj` the EPSG:4326 reprojection of
a bounding box.  Returns the result dictionary and the trace of side effects
(file read, directory creation, world-file writes). -/
def create_world_files_from_geojson (ext file_extension : String)
    (expand_percentage : ℚ)
    (target_dpi landscape_width landscape_height portrait_width
      portrait_height : ℤ)
    (readResult : Except String (Bool × List GRow))
    (reproj : Bounds → Bounds) : WorldFilesResult × List WfEffect :=
  match validate_world_file_params expand_percentage target_dpi
      landscape_width landscape_height portrait_width portrait_height with
  | some msg => (mkWfFailure msg, [])
  | none =>
    if ext ∉ [".geojson", ".json", ".gpkg", ".shp"] then
      (mkWfFailure ("Unsupported file format: " ++ ext), [])
    else
      match readResult with
      | Except.error e =>
          (mkWfFailure ("Error creating world files: " ++ e), [WfEffect.readFile])
      | Except.ok (hasIdsls, rows) =>
        if rows.isEmpty then
          (mkWfFailure "The selected file contains no geometry data",
            [WfEffect.readFile])
        else if ¬ hasIdsls then
          (mkWfFailure "Required column idsls not found in the data",
            [WfEffect.readFile])
        else
          let adjusted := rows.filterMap (fun r =>
            r.geom.map (fun b => (r.idsls, adjust_bounds b expand_percentage)))
          if adjusted.isEmpty then
            (mkWfFailure "No valid polygon geometries found in the file",
              [WfEffect.readFile, WfEffect.makeDir])
          else
            let reprojected := adjusted.map (fun ib => (ib.1, reproj ib.2))
            let files := reprojected.map
              (fun ib => ib.1 ++ "_WS." ++ file_extension)
            (⟨true, none, files, files.length⟩,
              [WfEffect.readFile, WfEffect.makeDir]
                ++ files.map WfEffect.writeFile)


/-!
### Helper lemmas
-/

theorem mem_dropDups {α : Type} [DecidableEq α] {a : α} {l : List α} :
    a ∈ dropDups l ↔ a ∈ l := by
  induction l with
  | nil => simp [dropDups]
  | cons x xs ih =>
    rw [dropDups, List.mem_cons, List.mem_cons, List.mem_filter]
    by_cases hax : a = x
    · simp [hax]
    · simp [hax, ih]

theorem nodup_dropDups {α : Type} [DecidableEq α] (l : List α) :
    (dropDups l).Nodup := by
  induction l with
  | nil => simp [dropDups]
  | cons x xs ih =>
    rw [dropDups]
    refine List.nodup_cons.mpr ⟨?_, ih.filter _⟩
    intro hx
    rw [List.mem_filter] at hx
    simp at hx

theorem countP_eq_one_of_unique {α : Type} (p : α → Bool) (l : List α) (a : α)
    (hnd : l.Nodup) (ha : a ∈ l) (hpa : p a = true)
    (huniq : ∀ b ∈ l, p b = true → b = a) : l.countP p = 1 := by
  induction l with
  | nil => simp at ha
  | cons x xs ih =>
    rcases List.nodup_cons.mp hnd with ⟨hxn, hnd2⟩
    rcases List.mem_cons.mp ha with rfl | hmem
    · have hzero : List.countP p xs = 0 := by
        refine List.countP_eq_zero.mpr ?_
        intro b hb hpb
        exact absurd ((huniq b (List.mem_cons_of_mem _ hb) hpb) ▸ hb) hxn
      rw [List.countP_cons, hzero, hpa]
      simp
    · have hpx : p x = false := by
        by_contra hpx
        have hx : x = a := huniq x (List.mem_cons_self _ _)
          (eq_true_of_ne_false hpx)
        exact hxn (hx ▸ hmem)
      rw [List.countP_cons, hpx]
      simpa using ih hnd2 hmem fun b hb hpb =>
        huniq b (List.mem_cons_of_mem _ hb) hpb

theorem mask_different_eq_true {thr : ℚ} {r : IRow} :
    mask_different thr r = true ↔
      r.idsls_baru ≠ r.idsls_lama ∧
        (pvalGe (ratio_baru r) thr = true ∨ pvalGe (ratio_lama r) thr = true) := by
  simp [mask_different, and_comm]

theorem mask_same_eq_true {r : IRow} :
    mask_same r = true ↔ r.idsls_baru = r.idsls_lama := by
  simp [mask_same]

theorem mem_different_ids_df {rows : List IRow} {thr : ℚ} {d : OverlapRecord} :
    d ∈ different_ids_df rows thr ↔
      ∃ r, r ∈ rows ∧ isPolygonal r.geomType = true ∧
        r.idsls_baru ≠ r.idsls_lama ∧
        (pvalGe (ratio_baru r) thr = true ∨ pvalGe (ratio_lama r) thr = true) ∧
        diffRec r = d := by
  unfold different_ids_df intersections_polygonal
  rw [mem_dropDups]
  simp only [List.mem_map, List.mem_filter, mask_different_eq_true]
  constructor
  · rintro ⟨r, ⟨⟨hr, hpoly⟩, hne, hge⟩, hrec⟩
    exact ⟨r, hr, hpoly, hne, hge, hrec⟩
  · rintro ⟨r, hr, hpoly, hne, hge, hrec⟩
    exact ⟨r, ⟨⟨hr, hpoly⟩, hne, hge⟩, hrec⟩

theorem nodup_different_ids_df (rows : List IRow) (thr : ℚ) :
    (different_ids_df rows thr).Nodup :=
  nodup_dropDups _

theorem mem_same_ids_df {rows : List IRow} {thr : ℚ} {d : ShapeDriftRecord} :
    d ∈ same_ids_df rows thr ↔
      ∃ r, r ∈ rows ∧ isPolygonal r.geomType = true ∧
        r.idsls_baru = r.idsls_lama ∧
        pvalGe (area_change_ratio r) thr = true ∧ sameRec r = d := by
  unfold same_ids_df intersections_polygonal
  rw [mem_dropDups]
  simp only [List.mem_map, List.mem_filter, mask_same_eq_true]
  constructor
  · rintro ⟨r, ⟨⟨⟨hr, hpoly⟩, heq⟩, hge⟩, hrec⟩
    exact ⟨r, hr, hpoly, heq, hge, hrec⟩
  · rintro ⟨r, hr, hpoly, heq, hge, hrec⟩
    exact ⟨r, ⟨⟨⟨hr, hpoly⟩, heq⟩, hge⟩, hrec⟩

theorem nodup_same_ids_df (rows : List IRow) (thr : ℚ) :
    (same_ids_df rows thr).Nodup :=
  nodup_dropDups _

/-!
### Claim theorems: boundary-revision comparator
-/

/-- C1: an intersection row whose geometry is polygonal, whose two id values
differ and at least one of whose ratios `area_intersection/area_baru`,
`area_intersection/area_lama` is `>=` the overlap threshold yields exactly
one de-duplicated record in the different-id table; the table contains
nothing else, and the comparison is the inclusive `>=` on finite ratios, so a
ratio exactly equal to the threshold is included and any ratio strictly below
it is excluded. -/
theorem c1_different_id_overlap (rows : List IRow) (thr : ℚ) :
    (∀ d, d ∈ different_ids_df rows thr ↔
        ∃ r, r ∈ rows ∧ isPolygonal r.geomType = true ∧
          r.idsls_baru ≠ r.idsls_lama ∧
          (pvalGe (ratio_baru r) thr = true ∨ pvalGe (ratio_lama r) thr = true) ∧
          diffRec r = d)
    ∧ (∀ r, r ∈ rows → isPolygonal r.geomType = true →
        r.idsls_baru ≠ r.idsls_lama →
        (pvalGe (ratio_baru r) thr = true ∨ pvalGe (ratio_lama r) thr = true) →
        List.count (diffRec r) (different_ids_df rows thr) = 1)
    ∧ (∀ q : ℚ, pvalGe (PVal.val q) thr = true ↔ thr ≤ q) := by
  refine ⟨fun d => mem_different_ids_df, fun r hr hpoly hne hge => ?_, fun q => ?_⟩
  · exact List.count_eq_one_of_mem (nodup_different_ids_df rows thr)
      (mem_different_ids_df.mpr ⟨r, hr, hpoly, hne, hge, rfl⟩)
  · simp [pvalGe]

/-- Example overlay rows for the different-id claim. -/
def c1ExampleRows : List IRow :=
  [⟨"A", "B", 10, 20, GeomType.polygon, [6]⟩,
   ⟨"C", "C", 10, 10, GeomType.polygon, [9]⟩]

theorem c1_witness :
    List.count (diffRec ⟨"A", "B", 10, 20, GeomType.polygon, [6]⟩)
      (different_ids_df c1ExampleRows (1 / 2)) = 1 :=
  (c1_different_id_overlap c1ExampleRows (1 / 2)).2.1
    ⟨"A", "B", 10, 20, GeomType.polygon, [6]⟩ (List.mem_cons_self _ _) rfl
    (by decide)
    (Or.inl (by norm_num [ratio_baru, area_intersection, pdiv, pvalGe,
      List.sum_cons, List.sum_nil]))

/-- C2: a polygonal intersection row with equal ids yields a record in the
same-id table exactly when `area_change_ratio = 1 - area_intersection /
((area_baru + area_lama)/2)` is `>=` the drift threshold; the intersection
area is the sum of the areas of the polygonal fragments of the pairing (a
multi-part intersection is one row of the overlay, so fragment areas are
summed before the change ratio is computed), and when an id belongs to
exactly one polygonal same-id pairing the table holds exactly one record for
that id. -/
theorem c2_same_id_drift (rows : List IRow) (thrS : ℚ) :
    (∀ d, d ∈ same_ids_df rows thrS ↔
        ∃ r, r ∈ rows ∧ isPolygonal r.geomType = true ∧
          r.idsls_baru = r.idsls_lama ∧
          pvalGe (area_change_ratio r) thrS = true ∧ sameRec r = d)
    ∧ (∀ r : IRow, area_intersection r = r.fragments.sum)
    ∧ (∀ r : IRow, area_change_ratio r =
        pvalOneSub (pdiv r.fragments.sum ((r.area_baru + r.area_lama) / 2)))
    ∧ (∀ i : String, ∀ r, r ∈ rows → isPolygonal r.geomType = true →
        r.idsls_baru = i → r.idsls_lama = i →
        (∀ s, s ∈ rows → isPolygonal s.geomType = true →
          s.idsls_baru = i → s.idsls_lama = i → s = r) →
        pvalGe (area_change_ratio r) thrS = true →
        List.countP (fun d => d.idsls == i) (same_ids_df rows thrS) = 1) := by
  refine ⟨fun d => mem_same_ids_df, fun r => rfl, fun r => rfl,
    fun i r hr hpoly hb hl huniq hge => ?_⟩
  refine countP_eq_one_of_unique _ _ (sameRec r)
    (nodup_same_ids_df rows thrS) ?_ ?_ ?_
  · exact mem_same_ids_df.mpr ⟨r, hr, hpoly, hb.trans hl.symm, hge, rfl⟩
  · simpa [sameRec] using hb
  · intro b hb2 hpb
    rcases mem_same_ids_df.mp hb2 with ⟨s, hs, hspoly, hseq, hsge, hsrec⟩
    have hsi : s.idsls_baru = i := by
      have : b.idsls = i := by simpa using hpb
      rw [← hsrec] at this
      simpa [sameRec] using this
    have := huniq s hs hspoly hsi (hseq ▸ hsi)
    rw [← hsrec, this]

/-- Example overlay rows for the same-id drift claim: one pairing whose
intersection is a two-fragment multipolygon. -/
def c2ExampleRows : List IRow :=
  [⟨"C", "C", 10, 10, GeomType.multiPolygon, [4, 2]⟩]

theorem c2_witness :
    List.countP (fun d => d.idsls == "C")
      (same_ids_df c2ExampleRows (1 / 10)) = 1 :=
  (c2_same_id_drift c2ExampleRows (1 / 10)).2.2.2 "C"
    ⟨"C", "C", 10, 10, GeomType.multiPolygon, [4, 2]⟩
    (List.mem_cons_self _ _) rfl rfl rfl
    (by intro s hs h1 h2 h3; simpa [c2ExampleRows] using hs)
    (by norm_num [area_change_ratio, area_intersection, pdiv, pvalOneSub,
      pvalGe, List.sum_cons, List.sum_nil])

/-- C9: `find_overlapping_polygons` is total over its inputs: when the
internal pipeline fails it returns two empty tables, and otherwise it returns
the two classification tables. -/
theorem c9_never_raises (overlay_result : Except String (List IRow))
    (ot st : ℚ) :
    (∀ e, overlay_result = Except.error e →
      find_overlapping_polygons overlay_result ot st = ([], []))
    ∧ (∀ rows, overlay_result = Except.ok rows →
      find_overlapping_polygons overlay_result ot st =
        (different_ids_df rows ot, same_ids_df rows st)) := by
  constructor
  · intro e h
    subst h
    rfl
  · intro rows h
    subst h
    rfl

theorem c9_witness :
    find_overlapping_polygons (Except.error "CRS mismatch") (1 / 2) (1 / 10)
      = ([], []) :=
  (c9_never_raises (Except.error "CRS mismatch") (1 / 2) (1 / 10)).1
    "CRS mismatch" rfl

/-- C6 counterexample: the comparator does not skip the pairings of a
zero-area polygon.  A same-id polygonal pairing whose new-side polygon has
zero area (hence zero intersection area) is classified as drift with
`area_change_ratio = 1`, and appears in the same-id output table. -/
theorem c6_counterexample :
    same_ids_df [⟨"A", "A", 0, 4, GeomType.polygon, [0]⟩] (1 / 10) =
      [⟨"A", 0, 4, 0, PVal.val 1⟩] ∧
    same_ids_df [⟨"A", "A", 0, 4, GeomType.polygon, [0]⟩] (1 / 10) ≠ [] := by
  have h : same_ids_df [⟨"A", "A", 0, 4, GeomType.polygon, [0]⟩] (1 / 10) =
      [⟨"A", 0, 4, 0, PVal.val 1⟩] := by
    norm_num [same_ids_df, intersections_polygonal, isPolygonal, mask_same,
      area_change_ratio, area_intersection, pdiv, pvalOneSub, pvalGe, sameRec,
      dropDups, List.sum_cons, List.sum_nil, List.filter_cons, List.filter_nil]
  refine ⟨h, ?_⟩
  rw [h]
  simp

/-- C6 (amended): no `NaN` (or infinite) ratio reaches the outputs — with a
positive overlap threshold every ratio column of the different-id table is a
finite value and both areas of each of its records are nonzero (so a
zero-area polygon's pairings never reach it), and every change-ratio in the
same-id table is finite; however a same-id pairing whose new side has zero
area is not skipped: it is classified as drift with change ratio exactly 1.
Hypotheses: the intersection area is nonnegative and bounded by each input
area (geometric consistency of the overlay). -/
theorem c6_no_nan (rows : List IRow) (thrO thrS : ℚ) (hthr : 0 < thrO)
    (hgeom : ∀ r, r ∈ rows → 0 ≤ area_intersection r ∧
      area_intersection r ≤ r.area_baru ∧ area_intersection r ≤ r.area_lama) :
    (∀ d, d ∈ different_ids_df rows thrO →
        (∃ q, d.ratio_baru = PVal.val q) ∧ (∃ q, d.ratio_lama = PVal.val q) ∧
        d.area_baru ≠ 0 ∧ d.area_lama ≠ 0)
    ∧ (∀ d, d ∈ same_ids_df rows thrS →
        ∃ q, d.area_change_ratio = PVal.val q)
    ∧ (∀ r, r ∈ rows → isPolygonal r.geomType = true →
        r.idsls_baru = r.idsls_lama → r.area_baru = 0 → 0 < r.area_lama →
        thrS ≤ 1 → sameRec r ∈ same_ids_df rows thrS ∧
          (sameRec r).area_change_ratio = PVal.val 1) := by
  refine ⟨?_, ?_, ?_⟩
  · intro d hd
    rcases mem_different_ids_df.mp hd with ⟨r, hr, hpoly, hne, hge, hrec⟩
    rcases hgeom r hr with ⟨hnn, hba, hla⟩
    have hbz : r.area_baru ≠ 0 := by
      intro hb0
      have hiz : area_intersection r = 0 := le_antisymm (hb0 ▸ hba) hnn
      have h1 : ratio_baru r = PVal.nan := by
        simp [ratio_baru, pdiv, hb0, hiz]
      have h2 : pvalGe (ratio_lama r) thrO = false := by
        rcases eq_or_ne r.area_lama 0 with hl0 | hl0
        · simp [ratio_lama, pdiv, hl0, hiz, pvalGe]
        · simp [ratio_lama, pdiv, hl0, hiz, pvalGe, not_le, hthr]
      rcases hge with hge | hge
      · rw [h1] at hge
        simp [pvalGe] at hge
      · rw [h2] at hge
        simp at hge
    have hlz : r.area_lama ≠ 0 := by
      intro hl0
      have hiz : area_intersection r = 0 := le_antisymm (hl0 ▸ hla) hnn
      have h1 : ratio_lama r = PVal.nan := by
        simp [ratio_lama, pdiv, hl0, hiz]
      have h2 : pvalGe (ratio_baru r) thrO = false := by
        rcases eq_or_ne r.area_baru 0 with hb0 | hb0
        · simp [ratio_baru, pdiv, hb0, hiz, pvalGe]
        · simp [ratio_baru, pdiv, hb0, hiz, pvalGe, not_le, hthr]
      rcases hge with hge | hge
      · rw [h2] at hge
        simp at hge
      · rw [h1] at hge
        simp [pvalGe] at hge
    subst hrec
    refine ⟨⟨area_intersection r / r.area_baru, ?_⟩,
      ⟨area_intersection r / r.area_lama, ?_⟩, hbz, hlz⟩
    · simp [diffRec, ratio_baru, pdiv, hbz]
    · simp [diffRec, ratio_lama, pdiv, hlz]
  · intro d hd
    rcases mem_same_ids_df.mp hd with ⟨r, hr, hpoly, heq, hge, hrec⟩
    rcases hgeom r hr with ⟨hnn, hba, hla⟩
    subst hrec
    simp only [sameRec]
    rcases eq_or_ne ((r.area_baru + r.area_lama) / 2) 0 with hm0 | hm0
    · exfalso
      rcases eq_or_ne (area_intersection r) 0 with hi0 | hi0
      · rw [area_change_ratio, pdiv] at hge
        simp [hm0, hi0, pvalOneSub, pvalGe] at hge
      · have hipos : 0 < area_intersection r := lt_of_le_of_ne hnn (Ne.symm hi0)
        rw [area_change_ratio, pdiv] at hge
        simp [hm0, hi0, hipos, pvalOneSub, pvalGe] at hge
    · exact ⟨1 - area_intersection r / ((r.area_baru + r.area_lama) / 2),
        by simp [area_change_ratio, pdiv, hm0, pvalOneSub]⟩
  · intro r hr hpoly heq hb0 hlpos hthrS
    rcases hgeom r hr with ⟨hnn, hba, hla⟩
    have hiz : area_intersection r = 0 := le_antisymm (hb0 ▸ hba) hnn
    have hm : (r.area_baru + r.area_lama) / 2 ≠ 0 := by
      rw [hb0]
      positivity
    have hcr : area_change_ratio r = PVal.val 1 := by
      simp [area_change_ratio, pdiv, hm, hiz, pvalOneSub]
    refine ⟨mem_same_ids_df.mpr ⟨r, hr, hpoly, heq, ?_, rfl⟩, ?_⟩
    · simp [hcr, pvalGe, hthrS]
    · simp [sameRec, hcr]

theorem c6_witness :
    sameRec ⟨"Z", "Z", 0, 4, GeomType.polygon, [0]⟩ ∈
        same_ids_df [⟨"Z", "Z", 0, 4, GeomType.polygon, [0]⟩] (1 / 10) ∧
      (sameRec ⟨"Z", "Z", 0, 4, GeomType.polygon, [0]⟩).area_change_ratio =
        PVal.val 1 :=
  (c6_no_nan [⟨"Z", "Z", 0, 4, GeomType.polygon, [0]⟩] (1 / 2) (1 / 10)
      (by norm_num)
      (by
        intro r hr
        rw [List.mem_singleton] at hr
        subst hr
        norm_num [area_intersection, List.sum_cons, List.sum_nil])).2.2
    ⟨"Z", "Z", 0, 4, GeomType.polygon, [0]⟩ (List.mem_cons_self _ _) rfl rfl
    rfl (by norm_num) (by norm_num)

/-!
### Claim theorems: off-point check
-/

/-- C4 counterexample: a point that lies inside no polygon is silently
dropped by the inner spatial join.  With one point (stated id `"A"`,
intersecting nothing) and one polygon (id `"B"`), the summary is empty: no
mismatch row with `actual_polygon_id = ""` (or any row at all) is reported
for the point. -/
theorem c4_counterexample :
    search_off_point ⟨["iddesa", "nama", "wid"], [⟨"A", "P1", "W1", 7⟩]⟩
      ⟨["iddesa", "geometry"], [⟨"B", fun _ => false⟩]⟩ "Desa" =
      ([], Except.ok []) := rfl

/-- C4 (amended): a point intersecting no polygon of the polygon collection
never contributes to the off-point output: removing it from the point
collection leaves the result of `search_off_point` (messages and table)
unchanged, so such points are silently dropped rather than reported. -/
theorem c4_off_point_dropped (point : PointDF) (polygon : PolyDF)
    (level : String) (p : PointRow)
    (hp : ∀ q, q ∈ polygon.rows → q.intersects p.pid = false) :
    search_off_point ⟨point.columns, p :: point.rows⟩ polygon level =
      search_off_point point polygon level := by
  have hfil : polygon.rows.filter (fun q => q.intersects p.pid) = [] := by
    refine List.filter_eq_nil_iff.mpr ?_
    intro q hq
    simp [hp q hq]
  have hmm : off_point_mismatches ⟨point.columns, p :: point.rows⟩ polygon =
      off_point_mismatches point polygon := by
    unfold off_point_mismatches
    simp [hfil]
  unfold search_off_point
  simp only [hmm]

theorem c4_witness :
    search_off_point ⟨["iddesa"], [⟨"X", "P", "W", 5⟩]⟩
        ⟨["iddesa"], [⟨"Y", fun _ => false⟩]⟩ "Desa" =
      search_off_point ⟨["iddesa"], []⟩
        ⟨["iddesa"], [⟨"Y", fun _ => false⟩]⟩ "Desa" :=
  c4_off_point_dropped ⟨["iddesa"], []⟩ ⟨["iddesa"], [⟨"Y", fun _ => false⟩]⟩
    "Desa" ⟨"X", "P", "W", 5⟩
    (by
      intro q hq
      rw [List.mem_singleton] at hq
      subst hq
      rfl)

/-- C7 counterexample: with the id column present in the point layer but
missing from the polygon layer, `search_off_point` prints which column and
collection are deficient but then raises out of the column selection — it
does not return an (empty) result. -/
theorem c7_counterexample :
    (search_off_point ⟨["iddesa", "nama", "wid"], [⟨"A", "P", "W", 0⟩]⟩
        ⟨["geometry"], [⟨"A", fun _ => true⟩]⟩ "Desa").1 =
        ["Column iddesa was not found in polygon file"] ∧
      ∀ t, (search_off_point ⟨["iddesa", "nama", "wid"], [⟨"A", "P", "W", 0⟩]⟩
        ⟨["geometry"], [⟨"A", fun _ => true⟩]⟩ "Desa").2 ≠ Except.ok t := by
  constructor
  · rfl
  · intro t h
    simp [search_off_point, colname] at h

/-- C7 (amended): when the configured id column is missing from the point or
the polygon collection, `search_off_point` reports which field is missing and
which collection lacks it, but it does not return early: the subsequent join
step raises a key-lookup error that escapes, so no result (empty or
otherwise) is returned. -/
theorem c7_missing_column_reported (point : PointDF) (polygon : PolyDF)
    (level : String)
    (h : colname level ∉ point.columns ∨ colname level ∉ polygon.columns) :
    ((colname level ∉ point.columns →
        ("Column " ++ colname level ++ " was not found in point file") ∈
          (search_off_point point polygon level).1)
      ∧ (colname level ∉ polygon.columns →
        ("Column " ++ colname level ++ " was not found in polygon file") ∈
          (search_off_point point polygon level).1))
    ∧ ∃ e, (search_off_point point polygon level).2 = Except.error e := by
  have hmsg : (search_off_point point polygon level).1 =
      (if colname level ∈ point.columns then []
        else ["Column " ++ colname level ++ " was not found in point file"])
      ++ (if colname level ∈ polygon.columns then []
        else ["Column " ++ colname level ++ " was not found in polygon file"]) := by
    unfold search_off_point
    by_cases hpg : colname level ∈ polygon.columns <;>
      by_cases hpt : colname level ∈ point.columns <;>
        simp [hpg, hpt]
  refine ⟨⟨fun hpt => ?_, fun hpg => ?_⟩, ?_⟩
  · rw [hmsg]
    simp [hpt]
  · rw [hmsg]
    simp [hpg]
  · by_cases hpg : colname level ∈ polygon.columns
    · have hpt : colname level ∉ point.columns := by
        rcases h with h | h
        · exact h
        · exact absurd hpg h
      exact ⟨"KeyError: " ++ colname level ++ "_pt",
        by simp [search_off_point, hpg, hpt]⟩
    · exact ⟨"KeyError: " ++ colname level,
        by simp [search_off_point, hpg]⟩

theorem c7_witness :
    ("Column iddesa was not found in polygon file" ∈
        (search_off_point ⟨["iddesa", "nama", "wid"], []⟩
          ⟨["geometry"], []⟩ "Desa").1)
      ∧ ∃ e, (search_off_point ⟨["iddesa", "nama", "wid"], []⟩
          ⟨["geometry"], []⟩ "Desa").2 = Except.error e :=
  ⟨(c7_missing_column_reported ⟨["iddesa", "nama", "wid"], []⟩
      ⟨["geometry"], []⟩ "Desa" (Or.inr (by decide))).1.2 (by decide),
   (c7_missing_column_reported ⟨["iddesa", "nama", "wid"], []⟩
      ⟨["geometry"], []⟩ "Desa" (Or.inr (by decide))).2⟩

theorem off_point_groupby_idcols (l : List (PointRow × PolyRow)) :
    (off_point_groupby l).map (fun o => o.idcol) =
      List.insertionSort (fun a b : String => a ≤ b)
        (dropDups (l.map (fun pq => pq.1.idval))) := by
  unfold off_point_groupby
  rw [List.map_map]
  exact List.map_id _

/-- C8: on success the off-point result aggregates the mismatches by the
point's stated id value: its id column is sorted ascending, every id with at
least one mismatch owns exactly one output row, and each output row carries
some mismatching id together with the count of that id's mismatch entries and
the comma-joined list of their point identifiers (`wid`). -/
theorem c8_off_point_aggregation (point : PointDF) (polygon : PolyDF)
    (level : String) (h1 : colname level ∈ point.columns)
    (h2 : colname level ∈ polygon.columns) :
    (search_off_point point polygon level).2 =
        Except.ok (off_point_groupby (off_point_mismatches point polygon))
      ∧ List.Sorted (fun a b : String => a ≤ b)
          ((off_point_groupby (off_point_mismatches point polygon)).map
            (fun o => o.idcol))
      ∧ (∀ i, (∃ pq, pq ∈ off_point_mismatches point polygon ∧
            pq.1.idval = i) →
          List.countP (fun o => o.idcol == i)
            (off_point_groupby (off_point_mismatches point polygon)) = 1)
      ∧ (∀ o, o ∈ off_point_groupby (off_point_mismatches point polygon) →
          (∃ pq, pq ∈ off_point_mismatches point polygon ∧
              pq.1.idval = o.idcol)
          ∧ o.count = ((off_point_mismatches point polygon).filter
              (fun pq => pq.1.idval = o.idcol)).length
          ∧ o.list_id = String.intercalate ", "
              (((off_point_mismatches point polygon).filter
                (fun pq => pq.1.idval = o.idcol)).map (fun pq => pq.1.wid))) := by
  refine ⟨by simp [search_off_point, h1, h2], ?_, ?_, ?_⟩
  · rw [off_point_groupby_idcols]
    exact List.sorted_insertionSort _ _
  · rintro i ⟨pq, hpq, hid⟩
    have hkeynd : (List.insertionSort (fun a b : String => a ≤ b)
        (dropDups ((off_point_mismatches point polygon).map
          (fun pq => pq.1.idval)))).Nodup :=
      (List.perm_insertionSort _ _).nodup_iff.mpr (nodup_dropDups _)
    have hkeymem : i ∈ List.insertionSort (fun a b : String => a ≤ b)
        (dropDups ((off_point_mismatches point polygon).map
          (fun pq => pq.1.idval))) := by
      rw [List.mem_insertionSort, mem_dropDups]
      exact List.mem_map.mpr ⟨pq, hpq, hid⟩
    unfold off_point_groupby
    rw [List.countP_map]
    refine countP_eq_one_of_unique _ _ i hkeynd hkeymem ?_ ?_
    · simp [Function.comp]
    · intro b hb hpb
      simpa [Function.comp] using hpb
  · intro o ho
    unfold off_point_groupby at ho
    rcases List.mem_map.mp ho with ⟨k, hk, rfl⟩
    rw [List.mem_insertionSort, mem_dropDups] at hk
    rcases List.mem_map.mp hk with ⟨pq, hpq, hid⟩
    exact ⟨⟨pq, hpq, hid⟩, rfl, rfl⟩

/-- Concrete layers for the off-point aggregation witness: one point off its
stated polygon (`"D2"` stated, lies in `"D1"`) and one matching point. -/
def c8PointDF : PointDF :=
  ⟨["iddesa", "nama", "wid"],
   [⟨"D2", "P1", "W1", 0⟩, ⟨"D1", "P2", "W2", 1⟩]⟩

def c8PolyDF : PolyDF :=
  ⟨["iddesa", "geometry"], [⟨"D1", fun p => p == 0 || p == 1⟩]⟩

theorem c8_witness :
    (search_off_point c8PointDF c8PolyDF "Desa").2 =
        Except.ok (off_point_groupby (off_point_mismatches c8PointDF c8PolyDF))
      ∧ List.countP (fun o => o.idcol == "D2")
          (off_point_groupby (off_point_mismatches c8PointDF c8PolyDF)) = 1 :=
  ⟨(c8_off_point_aggregation c8PointDF c8PolyDF "Desa"
      (by decide) (by decide)).1,
   (c8_off_point_aggregation c8PointDF c8PolyDF "Desa"
      (by decide) (by decide)).2.2.1 "D2"
     ⟨(⟨"D2", "P1", "W1", 0⟩, ⟨"D1", fun p => p == 0 || p == 1⟩),
      List.mem_cons_self _ _, rfl⟩⟩

/-!
### Claim theorems: world-file generator
-/

/-- C3: the emitted world-file coefficients satisfy
`x_scale = (xmax-xmin)/pixel_width`, `y_scale = (ymin-ymax)/pixel_height`
(negative), `upper_left_x = xmin + x_scale/2`, `upper_left_y = ymax +
y_scale/2` over the final reprojected bounds, and reconstructing the bounding
box from them reproduces those bounds exactly, in particular within the
tolerance `1e-9`. -/
theorem c3_world_file_roundtrip (lw lh pw ph : ℕ) (xmin ymin xmax ymax : ℚ)
    (b : Bool) (wf : WorldFileParams) (iw ih : ℚ)
    (hwf : wf = create_world_file_from_bounds lw lh pw ph xmin ymin xmax ymax b)
    (hiwd : iw = if b then (lw : ℚ) else (pw : ℚ))
    (hihd : ih = if b then (lh : ℚ) else (ph : ℚ))
    (hlw : 0 < lw) (hlh : 0 < lh) (hpw : 0 < pw) (hph : 0 < ph)
    (hy : ymin < ymax) :
    wf.x_scale = (xmax - xmin) / iw
    ∧ wf.y_scale = (ymin - ymax) / ih
    ∧ wf.y_scale < 0
    ∧ wf.upper_left_x = xmin + wf.x_scale / 2
    ∧ wf.upper_left_y = ymax + wf.y_scale / 2
    ∧ wf.upper_left_x - wf.x_scale / 2 = xmin
    ∧ wf.upper_left_x - wf.x_scale / 2 + iw * wf.x_scale = xmax
    ∧ wf.upper_left_y - wf.y_scale / 2 = ymax
    ∧ wf.upper_left_y - wf.y_scale / 2 + ih * wf.y_scale = ymin
    ∧ |wf.upper_left_x - wf.x_scale / 2 - xmin| ≤ 1 / 1000000000
    ∧ |wf.upper_left_y - wf.y_scale / 2 + ih * wf.y_scale - ymin|
        ≤ 1 / 1000000000 := by
  subst hwf hiwd hihd
  have hiw2 : (0 : ℚ) < if b then (lw : ℚ) else (pw : ℚ) := by
    cases b
    · simpa using (show (0 : ℚ) < (pw : ℚ) by exact_mod_cast hpw)
    · simpa using (show (0 : ℚ) < (lw : ℚ) by exact_mod_cast hlw)
  have hih2 : (0 : ℚ) < if b then (lh : ℚ) else (ph : ℚ) := by
    cases b
    · simpa using (show (0 : ℚ) < (ph : ℚ) by exact_mod_cast hph)
    · simpa using (show (0 : ℚ) < (lh : ℚ) by exact_mod_cast hlh)
  set wf := create_world_file_from_bounds lw lh pw ph xmin ymin xmax ymax b
    with hwf2
  set iw : ℚ := if b then (lw : ℚ) else (pw : ℚ) with hiw3
  set ih : ℚ := if b then (lh : ℚ) else (ph : ℚ) with hih3
  have hiwne : iw ≠ 0 := ne_of_gt hiw2
  have hihne : ih ≠ 0 := ne_of_gt hih2
  have hxs : wf.x_scale = (xmax - xmin) / iw := rfl
  have hys : wf.y_scale = (ymin - ymax) / ih := rfl
  have hux : wf.upper_left_x = xmin + wf.x_scale / 2 := rfl
  have huy : wf.upper_left_y = ymax + wf.y_scale / 2 := rfl
  have h6 : wf.upper_left_x - wf.x_scale / 2 = xmin := by rw [hux]; ring
  have h7 : wf.upper_left_x - wf.x_scale / 2 + iw * wf.x_scale = xmax := by
    rw [hux, hxs]
    field_simp
  have h8 : wf.upper_left_y - wf.y_scale / 2 = ymax := by rw [huy]; ring
  have h9 : wf.upper_left_y - wf.y_scale / 2 + ih * wf.y_scale = ymin := by
    rw [huy, hys]
    field_simp
  refine ⟨hxs, hys, ?_, hux, huy, h6, h7, h8, h9, ?_, ?_⟩
  · rw [hys]
    exact div_neg_of_neg_of_pos (by linarith) hih2
  · rw [h6]
    norm_num
  · rw [h9]
    norm_num

theorem c3_witness :
    (create_world_file_from_bounds 3307 2338 2338 3307 0 0 10 10 true).upper_left_x
        - (create_world_file_from_bounds 3307 2338 2338 3307 0 0 10 10 true).x_scale / 2
        = 0
    ∧ (create_world_file_from_bounds 3307 2338 2338 3307 0 0 10 10 true).upper_left_y
        - (create_world_file_from_bounds 3307 2338 2338 3307 0 0 10 10 true).y_scale / 2
        = 10 :=
  ⟨(c3_world_file_roundtrip 3307 2338 2338 3307 0 0 10 10 true
      (create_world_file_from_bounds 3307 2338 2338 3307 0 0 10 10 true)
      3307 2338 rfl (by norm_num) (by norm_num) (by norm_num) (by norm_num)
      (by norm_num) (by norm_num) (by norm_num)).2.2.2.2.2.1,
   (c3_world_file_roundtrip 3307 2338 2338 3307 0 0 10 10 true
      (create_world_file_from_bounds 3307 2338 2338 3307 0 0 10 10 true)
      3307 2338 rfl (by norm_num) (by norm_num) (by norm_num) (by norm_num)
      (by norm_num) (by norm_num) (by norm_num)).2.2.2.2.2.2.2.1⟩

/-- C5 counterexample: for the square (0,0)-(10,10) with expand fraction 0
the generator does not take the landscape ratio-correction path: `width >
height` is false (10 > 10 fails), so the portrait branch runs and the
pre-margin box is (0, -185/278, 10, 10 + 185/278), not the claimed
(-65/68, 0, 10 + 65/68, 10) that the landscape branch with new width
10*(324/272) would give. -/
theorem c5_counterexample :
    ¬ ((10 : ℚ) - 0 > 10 - 0)
    ∧ pre_margin_box ⟨0, 0, 10, 10⟩ 0 = ⟨0, -185 / 278, 10, 2965 / 278⟩
    ∧ pre_margin_box ⟨0, 0, 10, 10⟩ 0 ≠ ⟨-65 / 68, 0, 745 / 68, 10⟩ := by
  refine ⟨by norm_num, ?_, ?_⟩
  · norm_num [pre_margin_box, ratio_corrected_portrait, portrait_ratio,
      Bounds.mk.injEq]
  · norm_num [pre_margin_box, ratio_corrected_portrait, portrait_ratio,
      Bounds.mk.injEq]

/-- C5 (amended): for the square polygon with bounds (0,0)-(10,10) and
expand fraction 0, base orientation is width > height implying landscape else
portrait, so the square goes portrait (10 > 10 is false) with target ratio
278:315; since poly_ratio 1 exceeds 278/315 the height grows symmetrically to
10 * (315/278), delta = (10 * 315/278 - 10)/2 = 185/278 ≈ 0.665, producing
the pre-margin box (0, -185/278, 10, 10 + 185/278). -/
theorem c5_square_portrait :
    ¬ ((10 : ℚ) - 0 > 10 - 0)
    ∧ (1 : ℚ) > portrait_ratio
    ∧ (10 * ((315 : ℚ) / 278) - 10) / 2 = 185 / 278
    ∧ pre_margin_box ⟨0, 0, 10, 10⟩ 0 =
        ⟨0, 0 - (10 * (315 / 278) - 10) / 2, 10,
          10 + (10 * (315 / 278) - 10) / 2⟩ := by
  refine ⟨by norm_num, by norm_num [portrait_ratio], by norm_num, ?_⟩
  norm_num [pre_margin_box, ratio_corrected_portrait, portrait_ratio,
    Bounds.mk.injEq]

/-- C10: invalid parameters (negative expand percentage, non-positive DPI or
any non-positive pixel dimension) make `create_world_files_from_geojson`
return the failure dictionary with `success = false`, empty `created_files`
and `total_files = 0`, and the validation runs before the input file is read
or the output directory is created: the side-effect trace is empty. -/
theorem c10_param_validation (ext file_extension : String)
    (expand_percentage : ℚ) (target_dpi lw lh pw ph : ℤ)
    (readResult : Except String (Bool × List GRow)) (reproj : Bounds → Bounds)
    (h : expand_percentage < 0 ∨ target_dpi ≤ 0 ∨ lw ≤ 0 ∨ lh ≤ 0 ∨ pw ≤ 0 ∨
      ph ≤ 0) :
    (create_world_files_from_geojson ext file_extension expand_percentage
        target_dpi lw lh pw ph readResult reproj).1.success = false
    ∧ (create_world_files_from_geojson ext file_extension expand_percentage
        target_dpi lw lh pw ph readResult reproj).1.created_files = []
    ∧ (create_world_files_from_geojson ext file_extension expand_percentage
        target_dpi lw lh pw ph readResult reproj).1.total_files = 0
    ∧ (create_world_files_from_geojson ext file_extension expand_percentage
        target_dpi lw lh pw ph readResult reproj).2 = [] := by
  have hv : ∃ msg, validate_world_file_params expand_percentage target_dpi
      lw lh pw ph = some msg := by
    unfold validate_world_file_params
    split_ifs with h1 h2 h3 h4 h5 h6
    · exact ⟨_, rfl⟩
    · exact ⟨_, rfl⟩
    · exact ⟨_, rfl⟩
    · exact ⟨_, rfl⟩
    · exact ⟨_, rfl⟩
    · exact ⟨_, rfl⟩
    · rcases h with h | h | h | h | h | h
      · exact absurd h h1
      · exact absurd h h2
      · exact absurd h h3
      · exact absurd h h4
      · exact absurd h h5
      · exact absurd h h6
  rcases hv with ⟨msg, hmsg⟩
  unfold create_world_files_from_geojson
  rw [hmsg]
  exact ⟨rfl, rfl, rfl, rfl⟩

theorem c10_witness :
    (create_world_files_from_geojson ".geojson" "jgw" (5 / 100) 0 3307 2338
        2338 3307 (Except.ok (true, [])) id).1.success = false
    ∧ (create_world_files_from_geojson ".geojson" "jgw" (5 / 100) 0 3307 2338
        2338 3307 (Except.ok (true, [])) id).1.created_files = []
    ∧ (create_world_files_from_geojson ".geojson" "jgw" (5 / 100) 0 3307 2338
        2338 3307 (Except.ok (true, [])) id).1.total_files = 0
    ∧ (create_world_files_from_geojson ".geojson" "jgw" (5 / 100) 0 3307 2338
        2338 3307 (Except.ok (true, [])) id).2 = [] :=
  c10_param_validation ".geojson" "jgw" (5 / 100) 0 3307 2338 2338 3307
    (Except.ok (true, [])) id (Or.inr (Or.inl (by norm_num)))
